import Mathlib

/-!
# Investment analysis pipeline: a shallow embedding

This file embeds the core numeric pipeline of the repository (rent
estimation, cash-flow projection, mortgage amortization, exit/return
calculation, outlier filtering) in Lean and proves properties of it.

The embedding follows src/newTest.py (and, for the legacy return
formulas, src/test.py).  Conventions:

* Python floats on money and rates are modelled as rationals.
* Python dicts are association lists; dict.get with a default becomes
  List.lookup followed by Option.getD.
* The per-property metrics dict that the stages extend in place becomes
  the structure Metrics; a key that a stage has not written holds 0,
  mirroring the dict.get(key, 0) reads performed by later stages.
* datetime.now() is replaced by explicit current_month / current_year
  arguments.
* The external numeric routines numpy_financial.pmt and numpy_financial.irr
  are treated as follows: pmt has a closed form, embedded as amortPmt;
  irr is an abstract root-finding argument (List rationals to Option), where
  none models a numerical failure of the solver.
-/

set_option autoImplicit false

namespace Pipeline

/-- A property listing row: the per-property CSV fields that the pipeline
reads.  Numeric CSV fields are rationals (Python reads them with float);
the ZORI fields written by the rent-estimation stage are Options because
later stages test their presence/truthiness. -/
structure Row where
  list_price : ℚ := 0
  beds : ℚ := 0
  full_baths : ℚ := 0
  half_baths : ℚ := 0
  sqft : ℚ := 0
  year_built : ℚ := 0
  style : String := ""
  zip_code : ℕ := 0
  state : String := ""
  tax : ℚ := 0
  hoa_fee : ℚ := 0
  text : String := ""
  parking_garage : ℚ := 0
  zori_monthly_rent : Option ℚ := none
  zori_annual_rent : Option ℚ := none
  zori_growth_rate : Option ℚ := none
  PTR : ℚ := 0
  price_per_sqft : ℚ := 0
deriving DecidableEq

/-- The stringly-typed metrics dict accumulated across pipeline stages
(newTest.py builds one such dict per property).  Every key the pipeline
reads or writes is a field; the default 0 models dict.get(key, 0) for a
key not yet written. -/
structure Metrics where
  monthly_rent : ℚ := 0
  annual_rent : ℚ := 0
  tax_used : ℚ := 0
  hoa_fee_used : ℚ := 0
  down_payment_pct : ℚ := 0
  interest_rate : ℚ := 0
  loan_term : ℕ := 0
  transaction_cost : ℚ := 0
  cash_equity : ℚ := 0
  noi_year1 : ℚ := 0
  noi_year2 : ℚ := 0
  noi_year3 : ℚ := 0
  noi_year4 : ℚ := 0
  noi_year5 : ℚ := 0
  cap_rate : ℚ := 0
  ucf_year1 : ℚ := 0
  ucf_year2 : ℚ := 0
  ucf_year3 : ℚ := 0
  ucf_year4 : ℚ := 0
  ucf_year5 : ℚ := 0
  ucf : ℚ := 0
  cash_yield : ℚ := 0
  loan_amount : ℚ := 0
  monthly_payment : ℚ := 0
  annual_debt_service : ℚ := 0
  principal_paid_year1 : ℚ := 0
  principal_paid_year2 : ℚ := 0
  principal_paid_year3 : ℚ := 0
  principal_paid_year4 : ℚ := 0
  principal_paid_year5 : ℚ := 0
  loan_balance_year1 : ℚ := 0
  loan_balance_year2 : ℚ := 0
  loan_balance_year3 : ℚ := 0
  loan_balance_year4 : ℚ := 0
  loan_balance_year5 : ℚ := 0
  lcf_year1 : ℚ := 0
  lcf_year2 : ℚ := 0
  lcf_year3 : ℚ := 0
  lcf_year4 : ℚ := 0
  lcf_year5 : ℚ := 0
  total_principal_paid : ℚ := 0
  final_loan_balance : ℚ := 0
  accumulated_cash_flow : ℚ := 0
  exit_cap_rate : ℚ := 0
  exit_value : ℚ := 0
  equity_at_exit : ℚ := 0
  cash_on_cash : ℚ := 0
  total_return : ℚ := 0
  irr : ℚ := 0
deriving DecidableEq

/-- One entry of growth_rates_by_zip as built by load_zori_data; the default
values are the dict default used by calculate_growth_rate. -/
structure GrowthData where
  one_year : ℚ := 3
  five_year_cagr : ℚ := 3
deriving DecidableEq

/-- The 5-tuple returned by estimate_rental_income on success:
(monthly rent, annual rent, growth rate in percent, 5-year rent projections,
gross rent multiplier). -/
structure RentEstimate where
  monthly : ℚ
  annual : ℚ
  growth_pct : ℚ
  projections : List ℚ
  grm : ℚ
deriving DecidableEq

/-- The metric fields of a finished CSV row that filter_investment_outliers
inspects. -/
structure FilterRow where
  cap_rate : ℚ := 0
  irr : ℚ := 0
  cash_on_cash : ℚ := 0
  gross_rent_multiplier : ℚ := 0
  lcf_year1 : ℚ := 0
  ucf_year1 : ℚ := 0
  list_price : ℚ := 0
  annual_rent : ℚ := 0
deriving DecidableEq

/-- Python min on two numbers (spelled out so that closed terms reduce in
the kernel). -/
def pymin (a b : ℚ) : ℚ := if a ≤ b then a else b

/-- Python max on two numbers. -/
def pymax (a b : ℚ) : ℚ := if a ≤ b then b else a

/-- Python int(...) on a decimal-digit string (the form the pipeline feeds
it), spelled on the character list so that closed terms reduce. -/
def pyint (s : String) : Option ℕ :=
  if s.data ≠ [] ∧ s.data.all Char.isDigit then
    some (s.data.foldl (fun n c => n * 10 + (c.toNat - Char.toNat (Char.ofNat 48))) 0)
  else none

/-- Python str.strip(). -/
def pystrip (s : String) : String :=
  ⟨((s.data.dropWhile Char.isWhitespace).reverse.dropWhile Char.isWhitespace).reverse⟩

/-- Python str.lower(). -/
def pylower (s : String) : String :=
  ⟨s.data.map Char.toLower⟩

set_option maxRecDepth 8000 in
set_option maxHeartbeats 2000000 in
/-- The NEIGHBORHOOD_QUALITY zip-to-quality table of newTest.py lines
166-262 (a Python dict literal; duplicate keys resolved later-wins, as
Python does).  The final entry is the default used for uncovered ZIPs. -/
def NEIGHBORHOOD_QUALITY : List (String × ℚ) := [
  ("10013", 95/100), ("10012", 95/100), ("10007", 95/100), ("10103", 95/100),
  ("10069", 94/100), ("10018", 94/100), ("10021", 93/100), ("10001", 93/100),
  ("10014", 93/100), ("10011", 93/100), ("10028", 93/100), ("10024", 92/100),
  ("10023", 92/100), ("10128", 92/100), ("10019", 92/100), ("10022", 92/100),
  ("10065", 92/100), ("10075", 92/100), ("10016", 91/100), ("10010", 91/100),
  ("10038", 91/100), ("10036", 90/100), ("10280", 90/100), ("10282", 90/100),
  ("10025", 90/100), ("10003", 90/100), ("10009", 89/100), ("10006", 89/100),
  ("10002", 89/100), ("10005", 88/100), ("10027", 87/100), ("10026", 87/100),
  ("10029", 86/100), ("10004", 86/100), ("10044", 86/100), ("10017", 86/100),
  ("10035", 84/100), ("10033", 84/100), ("10031", 83/100), ("10032", 83/100),
  ("10030", 82/100), ("10037", 82/100), ("10039", 81/100), ("10040", 81/100),
  ("10034", 80/100), ("11231", 93/100), ("11225", 92/100), ("11249", 92/100),
  ("11217", 91/100), ("11216", 91/100), ("11201", 91/100), ("11222", 90/100),
  ("11215", 90/100), ("11204", 89/100), ("11211", 89/100), ("11233", 88/100),
  ("11220", 88/100), ("11221", 88/100), ("11205", 87/100), ("11237", 87/100),
  ("11228", 87/100), ("11232", 87/100), ("11238", 87/100), ("11223", 86/100),
  ("11206", 86/100), ("11214", 86/100), ("11207", 85/100), ("11212", 84/100),
  ("11213", 84/100), ("11218", 84/100), ("11226", 84/100), ("11236", 84/100),
  ("11203", 83/100), ("11208", 83/100), ("11219", 83/100), ("11229", 83/100),
  ("11210", 82/100), ("11235", 82/100), ("11224", 80/100), ("11243", 80/100),
  ("11209", 80/100), ("11239", 78/100), ("11109", 91/100), ("11366", 90/100),
  ("11363", 89/100), ("11357", 88/100), ("11385", 88/100), ("11356", 87/100),
  ("11362", 87/100), ("11103", 87/100), ("11378", 87/100), ("11358", 87/100),
  ("11101", 87/100), ("11361", 87/100), ("11379", 87/100), ("11432", 86/100),
  ("11365", 86/100), ("11416", 86/100), ("11429", 86/100), ("11355", 85/100),
  ("11426", 85/100), ("11422", 85/100), ("11411", 85/100), ("11417", 85/100),
  ("11106", 85/100), ("11433", 85/100), ("11427", 85/100), ("11419", 84/100),
  ("11368", 84/100), ("11420", 84/100), ("11354", 84/100), ("11418", 84/100),
  ("11412", 84/100), ("11434", 84/100), ("11102", 83/100), ("11423", 83/100),
  ("11428", 83/100), ("11413", 83/100), ("11436", 82/100), ("11414", 82/100),
  ("11435", 82/100), ("11415", 82/100), ("11374", 81/100), ("11372", 81/100),
  ("11364", 81/100), ("11367", 81/100), ("11370", 81/100), ("11377", 81/100),
  ("11375", 81/100), ("11373", 80/100), ("11105", 80/100), ("11104", 80/100),
  ("11369", 79/100), ("11692", 78/100), ("11694", 78/100), ("11691", 77/100),
  ("11693", 77/100), ("11004", 77/100), ("11005", 77/100), ("11040", 77/100),
  ("11756", 77/100), ("10454", 86/100), ("10475", 86/100), ("10453", 85/100),
  ("10455", 85/100), ("10458", 85/100), ("10469", 84/100), ("10465", 84/100),
  ("10459", 84/100), ("10461", 84/100), ("10473", 83/100), ("10460", 83/100),
  ("10457", 82/100), ("10467", 82/100), ("10466", 82/100), ("10456", 81/100),
  ("10472", 81/100), ("10464", 81/100), ("10301", 83/100), ("10451", 80/100),
  ("10462", 80/100), ("10471", 80/100), ("10463", 80/100), ("10468", 78/100),
  ("10474", 78/100), ("10452", 78/100), ("10307", 87/100), ("10309", 87/100),
  ("10314", 87/100), ("10308", 86/100), ("10304", 85/100), ("10306", 85/100),
  ("10305", 84/100), ("10310", 83/100), ("10312", 82/100), ("10302", 81/100),
  ("10303", 80/100), ("90001", 76/100), ("90002", 77/100), ("90003", 77/100),
  ("90004", 85/100), ("90005", 86/100), ("90006", 77/100), ("90007", 78/100),
  ("90008", 82/100), ("90010", 88/100), ("90011", 75/100), ("90012", 82/100),
  ("90013", 80/100), ("90014", 83/100), ("90015", 84/100), ("90016", 84/100),
  ("90017", 83/100), ("90018", 80/100), ("90019", 85/100), ("90020", 87/100),
  ("90021", 78/100), ("90022", 79/100), ("90023", 76/100), ("90024", 91/100),
  ("90025", 90/100), ("90026", 88/100), ("90027", 89/100), ("90028", 87/100),
  ("90029", 84/100), ("90031", 83/100), ("90032", 82/100), ("90033", 78/100),
  ("90034", 89/100), ("90035", 90/100), ("90036", 90/100), ("90037", 77/100),
  ("90038", 82/100), ("90039", 88/100), ("90041", 88/100), ("90042", 85/100),
  ("90043", 84/100), ("90044", 77/100), ("90045", 87/100), ("90046", 90/100),
  ("90047", 79/100), ("90048", 91/100), ("90049", 92/100), ("90056", 85/100),
  ("90057", 83/100), ("90059", 76/100), ("90061", 77/100), ("90062", 78/100),
  ("90063", 79/100), ("90064", 89/100), ("90065", 85/100), ("90066", 89/100),
  ("90067", 92/100), ("90068", 90/100), ("90069", 92/100), ("90077", 93/100),
  ("90094", 91/100), ("90210", 94/100), ("90230", 87/100), ("90232", 89/100),
  ("90247", 83/100), ("90272", 93/100), ("90291", 91/100), ("90292", 91/100),
  ("90293", 89/100), ("90402", 93/100), ("90501", 82/100), ("90710", 84/100),
  ("90717", 83/100), ("90731", 86/100), ("90732", 87/100), ("90744", 80/100),
  ("91040", 88/100), ("91042", 87/100), ("91214", 89/100), ("91303", 87/100),
  ("91304", 85/100), ("91306", 85/100), ("91307", 88/100), ("91311", 87/100),
  ("91316", 89/100), ("91324", 86/100), ("91325", 85/100), ("91326", 89/100),
  ("91331", 83/100), ("91335", 85/100), ("91340", 82/100), ("91342", 85/100),
  ("91343", 84/100), ("91344", 87/100), ("91345", 84/100), ("91352", 84/100),
  ("91356", 90/100), ("91364", 90/100), ("91367", 90/100), ("91401", 86/100),
  ("91402", 82/100), ("91403", 91/100), ("91405", 83/100), ("91406", 84/100),
  ("91411", 87/100), ("91423", 91/100), ("91436", 93/100), ("91504", 89/100),
  ("91601", 87/100), ("91602", 89/100), ("91604", 91/100), ("91605", 82/100),
  ("91606", 84/100), ("91607", 88/100), ("91911", 83/100), ("91913", 87/100),
  ("91942", 87/100), ("91950", 84/100), ("92014", 93/100), ("92027", 85/100),
  ("92029", 88/100), ("92037", 92/100), ("92067", 94/100), ("92101", 89/100),
  ("92102", 82/100), ("92103", 90/100), ("92104", 87/100), ("92105", 83/100),
  ("92106", 89/100), ("92107", 90/100), ("92108", 87/100), ("92109", 91/100),
  ("92110", 88/100), ("92111", 86/100), ("92113", 80/100), ("92114", 82/100),
  ("92115", 85/100), ("92116", 88/100), ("92117", 87/100), ("92119", 89/100),
  ("92120", 90/100), ("92121", 91/100), ("92122", 90/100), ("92123", 88/100),
  ("92124", 89/100), ("92126", 87/100), ("92127", 92/100), ("92128", 91/100),
  ("92129", 90/100), ("92130", 93/100), ("92131", 91/100), ("92139", 84/100),
  ("92154", 82/100), ("92173", 85/100), ("94102", 85/100), ("94103", 87/100),
  ("94104", 91/100), ("94105", 92/100), ("94107", 91/100), ("94108", 91/100),
  ("94109", 90/100), ("94110", 90/100), ("94111", 93/100), ("94112", 86/100),
  ("94114", 92/100), ("94115", 93/100), ("94116", 88/100), ("94117", 91/100),
  ("94118", 92/100), ("94121", 90/100), ("94122", 89/100), ("94123", 93/100),
  ("94124", 79/100), ("94127", 90/100), ("94131", 91/100), ("94132", 87/100),
  ("94133", 91/100), ("94134", 83/100), ("94158", 92/100), ("89011", 90/100),
  ("89031", 83/100), ("89101", 78/100), ("89102", 82/100), ("89103", 85/100),
  ("89104", 80/100), ("89106", 79/100), ("89107", 81/100), ("89108", 82/100),
  ("89109", 86/100), ("89110", 80/100), ("89113", 90/100), ("89115", 77/100),
  ("89117", 89/100), ("89118", 86/100), ("89119", 84/100), ("89120", 85/100),
  ("89121", 83/100), ("89122", 80/100), ("89123", 87/100), ("89124", 88/100),
  ("89128", 86/100), ("89129", 88/100), ("89130", 84/100), ("89131", 86/100),
  ("89134", 89/100), ("89135", 91/100), ("89138", 92/100), ("89139", 87/100),
  ("89141", 89/100), ("89142", 81/100), ("89143", 85/100), ("89144", 89/100),
  ("89145", 87/100), ("89146", 85/100), ("89147", 86/100), ("89148", 88/100),
  ("89149", 87/100), ("89156", 82/100), ("89158", 90/100), ("89161", 91/100),
  ("89166", 88/100), ("89169", 83/100), ("89178", 89/100), ("89179", 90/100),
  ("89183", 88/100), ("default", 75/100) ]

/-- NEIGHBORHOOD_QUALITY.get(zip_code, NEIGHBORHOOD_QUALITY[defaultKey]);
the table's default entry is 0.75.  The argument is an Option because
estimate_rental_income can reach this call with zip_code = None. -/
def get_neighborhood_factor (zip_code : Option String) : ℚ :=
  ((zip_code.bind fun z => NEIGHBORHOOD_QUALITY.lookup z).getD (75/100))

/-- PROPERTY_TYPE_MODIFIERS[growthKey].get(style, 1.0) as a function. -/
def growthModifier (style : String) : ℚ :=
  if style = "Condo" then 105/100
  else if style = "Co-op" then 95/100
  else if style = "Single Family" then 102/100
  else if style = "Multi Family" then 108/100
  else if style = "Townhouse" then 104/100
  else 1

/-- PROPERTY_TYPE_MODIFIERS[rentKey].get(style, 1.0) as a function. -/
def rentModifier (style : String) : ℚ :=
  if style = "Condo" then 115/100
  else if style = "Co-op" then 95/100
  else if style = "Single Family" then 105/100
  else if style = "Multi Family" then 90/100
  else if style = "Townhouse" then 110/100
  else if style = "Luxury" then 125/100
  else 1

/-- newTest.py lines 579-601, calculate_down_payment_pct: price-tiered base
down payment minus a neighborhood adjustment, clamped to [0.30, 0.60]. -/
def calculate_down_payment_pct (list_price neighborhood_factor : ℚ) : ℚ :=
  let base : ℚ :=
    if list_price < 200000 then 35/100
    else if list_price < 500000 then 40/100
    else if list_price < 750000 then 45/100
    else if list_price < 1000000 then 50/100
    else 55/100
  let adjusted := base - (neighborhood_factor - 75/100) * (5/100)
  pymin (60/100) (pymax (30/100) adjusted)

/-- newTest.py lines 603-635, determine_mortgage_terms: (interest rate in
percent, loan term in years) from the BASE_RATES and LOAN_TERMS tiers. -/
def determine_mortgage_terms (list_price neighborhood_factor : ℚ) : ℚ × ℕ :=
  let base : ℚ :=
    if list_price < 250000 then 8
    else if list_price < 500000 then 775/100
    else if list_price < 750000 then 750/100
    else if list_price < 1000000 then 725/100
    else 7
  let rate := base - (neighborhood_factor - 75/100) * 1
  let rate := pymin 9 (pymax 6 rate)
  let loan_term : ℕ :=
    if list_price < 500000 then 15
    else if list_price < 750000 then 20
    else 25
  (rate, loan_term)

/-- newTest.py lines 637-659, calculate_growth_rate.  The zip code is an
Option because estimate_rental_income can pass None after a failed index
resolution; dict.get then falls back to the default GrowthData. -/
def calculate_growth_rate (zip_code : Option String) (neighborhood_factor : ℚ)
    (property_style : String) (growth_rates_by_zip : List (String × GrowthData)) : ℚ :=
  let growth_data := (zip_code.bind fun z => growth_rates_by_zip.lookup z).getD {}
  let five_year_cagr := growth_data.five_year_cagr
  let property_type_modifier := growthModifier property_style
  let base_growth_rate := pymin 6 (pymax 2 five_year_cagr)
  let neighborhood_adjustment := neighborhood_factor * (2/100)
  let property_adjustment := (property_type_modifier - 1) * (1/100)
  let growth_rate :=
    pymin 10 (pymax 2 (base_growth_rate + neighborhood_adjustment * 100 + property_adjustment * 100))
  growth_rate / 100

/-- newTest.py lines 661-681, calculate_exit_cap_rate (identical in
test.py): entry cap expanded by a neighborhood/growth-adjusted spread,
clamped to [0.04, 0.10]. -/
def calculate_exit_cap_rate (entry_cap_rate growth_rate neighborhood_factor : ℚ) : ℚ :=
  let entry := if 1 < entry_cap_rate then entry_cap_rate / 100 else entry_cap_rate
  let base_expansion : ℚ := 1/100
  let neighborhood_adjustment := (neighborhood_factor - 75/100) * (15/1000)
  let growth_adjustment := (growth_rate - 3/100) * (1/2)
  let cap_rate_expansion := pymax 0 (base_expansion - neighborhood_adjustment - growth_adjustment)
  let exit_rate := entry + cap_rate_expansion
  pymin (10/100) (pymax (4/100) exit_rate)

/-- newTest.py lines 441-489, calculate_bed_bath_factor.  The bed/bath
counts are rationals (Python floats); the final branch is taken when both
are truthy (nonzero) and the bath-to-bed ratio is at least 1.5. -/
def calculate_bed_bath_factor (beds baths : ℚ) : ℚ :=
  let bed_value : ℚ :=
    if beds = 0 then 85/100
    else if beds = 1 then 1
    else if beds = 2 then 120/100
    else if beds = 3 then 135/100
    else if 4 ≤ beds then 145/100
    else 1
  let bath_value : ℚ :=
    if baths < 1 then 90/100
    else if baths = 1 then 1
    else if baths = 3/2 then 105/100
    else if baths = 2 then 110/100
    else if baths ≤ 3 then 120/100
    else 125/100
  if beds ≠ 0 ∧ baths ≠ 0 ∧ 0 < beds ∧ 3/2 ≤ baths / beds then
    (bed_value + bath_value) / 2 * (105/100)
  else
    (bed_value + bath_value) / 2

/-- newTest.py lines 491-513, calculate_size_factor. -/
def calculate_size_factor (sqft : ℚ) : ℚ :=
  if sqft = 0 ∨ sqft ≤ 0 then 1
  else if sqft < 500 then 85/100
  else if sqft < 750 then 95/100
  else if sqft < 1000 then 1
  else if sqft < 1500 then 110/100
  else if sqft < 2000 then 120/100
  else if sqft < 3000 then 130/100
  else 140/100

/-- newTest.py lines 515-537, calculate_condition_factor; datetime.now().year
is the explicit current_year argument. -/
def calculate_condition_factor (current_year year_built : ℚ) : ℚ :=
  if year_built = 0 ∨ year_built ≤ 0 then 1
  else
    let age := current_year - year_built
    if age < 3 then 115/100
    else if age < 10 then 110/100
    else if age < 20 then 105/100
    else if age < 40 then 1
    else if age < 75 then 95/100
    else 90/100

/-- Substring containment on strings, the model of the Python expression
(keyword in description). -/
def strContains (s pat : String) : Bool :=
  (List.range (s.data.length + 1)).any fun i => pat.data.isPrefixOf (s.data.drop i)

/-- The luxury_keywords list of calculate_amenity_score. -/
def luxury_keywords : List String :=
  ["doorman", "concierge", "luxury", "high-end", "renovated",
   "marble", "stainless", "premium", "upscale", "views", "pool",
   "gym", "fitness", "modern", "updated", "granite", "new appliances"]

/-- The HOA-fee step of calculate_amenity_score (newTest.py lines 560-568):
an if/elif chain checked in this order. -/
def hoa_amenity_bonus (hoa_fee : ℚ) : ℚ :=
  if 500 < hoa_fee then 5/100
  else if 1000 < hoa_fee then 10/100
  else 0

/-- newTest.py lines 539-570, calculate_amenity_score: 1.0 plus a capped
luxury-keyword bonus, a parking bonus, and the HOA-fee bonus. -/
def calculate_amenity_score (row : Row) : ℚ :=
  let description := pylower row.text
  let keyword_count : ℕ := (luxury_keywords.filter fun k => strContains description k).length
  let score : ℚ := 1 + pymin (20/100) ((1/100) * (keyword_count : ℚ))
  let score := if 0 < row.parking_garage then score + 5/100 else score
  score + hoa_amenity_bonus row.hoa_fee

/-- newTest.py lines 407-435, find_closest_zip_with_data.  Python int(...)
on a zip string is modelled by pyint; the fold keeps the first key at
minimal numeric distance, like the loop with its strict comparison. -/
def find_closest_zip_with_data (target_zip : String) (zori_by_zip : List (String × ℚ)) :
    Option String :=
  if (zori_by_zip.lookup target_zip).isSome then some target_zip
  else
    match pyint target_zip with
    | none => none
    | some t =>
      let best := zori_by_zip.foldl (fun acc kv =>
        match pyint kv.1 with
        | none => acc
        | some z =>
          let distance : ℕ := ((z : ℤ) - (t : ℤ)).natAbs
          match acc with
          | none => some (kv.1, distance)
          | some (bk, bd) => if distance < bd then some (kv.1, distance) else some (bk, bd))
        none
      best.map Prod.fst

/-- Lines 827-829 of estimate_rental_income: the ZIP actually used, namely
the property ZIP when the index covers it, else the nearest numeric ZIP
(None when that also fails). -/
def resolve_zip (zip_code : String) (zori_by_zip : List (String × ℚ)) : Option String :=
  if (zori_by_zip.lookup zip_code).isSome then some zip_code
  else find_closest_zip_with_data zip_code zori_by_zip

/-- Lines 831-839 of estimate_rental_income: the base ZORI rent, from the
resolved ZIP when one exists, else from the state average; none is the
all-None return. -/
def resolve_base_rent (zip_code state : String) (zori_by_zip : List (String × ℚ))
    (state_averages : List (String × ℚ)) : Option ℚ :=
  match resolve_zip zip_code zori_by_zip with
  | some z => some ((zori_by_zip.lookup z).getD 0)
  | none => state_averages.lookup state

/-- The 5-entry rent projection list of lines 889-892: starts at the
adjusted rent and compounds at the growth rate for four further years. -/
def rent_projections (adjusted_rent growth_rate : ℚ) : List ℚ :=
  [adjusted_rent,
   adjusted_rent * (1 + growth_rate),
   adjusted_rent * (1 + growth_rate) ^ 2,
   adjusted_rent * (1 + growth_rate) ^ 3,
   adjusted_rent * (1 + growth_rate) ^ 4]

/-- newTest.py lines 817-908, estimate_rental_income.  The ZIP string the
code builds with str(int(float(...))) is toString of the numeric zip_code;
current month and year replace datetime.now(). -/
def estimate_rental_income (current_month : ℕ) (current_year : ℚ) (row : Row)
    (zori_by_zip : List (String × ℚ)) (growth_rates_by_zip : List (String × GrowthData))
    (avg_seasonality : List (ℕ × ℚ)) (state_averages : List (String × ℚ)) :
    Option RentEstimate :=
  let zip_code := toString row.zip_code
  let resolved := resolve_zip zip_code zori_by_zip
  match resolve_base_rent zip_code row.state zori_by_zip state_averages with
  | none => none
  | some base_zori_rent =>
    let beds := row.beds
    let baths := row.full_baths + (1/2) * row.half_baths
    let property_style := if pystrip row.style = "" then "default" else pystrip row.style
    let bed_bath_factor := calculate_bed_bath_factor beds baths
    let size_factor := calculate_size_factor row.sqft
    let condition_factor := calculate_condition_factor current_year row.year_built
    let amenity_factor := calculate_amenity_score row
    let property_type_factor := rentModifier property_style
    let seasonality_factor := 1 + ((avg_seasonality.lookup current_month).getD 0) / 100
    let adjusted_rent :=
      if property_style = "Multi Family" ∧ 4 ≤ beds then
        -- multi-unit special case: max(2, beds // 2) units at a 15% discount
        base_zori_rent * (pymax 2 ((⌊beds / 2⌋ : ℤ) : ℚ)) * (85/100)
      else
        let adjustment_factor :=
          bed_bath_factor * (35/100) + size_factor * (25/100) +
          condition_factor * (15/100) + amenity_factor * (15/100) +
          property_type_factor * (10/100)
        base_zori_rent * (adjustment_factor * seasonality_factor)
    let neighborhood_factor := get_neighborhood_factor resolved
    let growth_rate := calculate_growth_rate resolved neighborhood_factor property_style
      growth_rates_by_zip
    let annual_rent := adjusted_rent * 12
    let grm := if 0 < annual_rent then row.list_price / annual_rent else 0
    some ⟨adjusted_rent, annual_rent, growth_rate * 100,
          rent_projections adjusted_rent growth_rate, grm⟩

/-- Lines 927-955 of calculate_cash_flow_metrics: the rent source, either
the ZORI fields (when requested and the monthly rent is truthy) or the PTR
fallback model; returns (monthly rent, annual rent, growth rate as a
decimal), or none for the early return of the empty metrics dict. -/
def rentSource (row : Row) (is_zori_based : Bool) : Option (ℚ × ℚ × ℚ) :=
  if is_zori_based ∧ row.zori_monthly_rent.getD 0 ≠ 0 then
    some (row.zori_monthly_rent.getD 0,
          row.zori_annual_rent.getD 0,
          (row.zori_growth_rate.getD 3) / 100)
  else
    if row.PTR ≤ 0 then none
    else
      let bre := if 0 < row.sqft ∧ 0 < row.price_per_sqft then row.sqft * row.price_per_sqft
                 else row.list_price
      let af := 1 + (5/100 + (2/100) * row.beds + (1/100) * row.full_baths +
                     (5/100) * (if 2000 < row.sqft then 1 else 0))
      let monthly := row.PTR * bre * af
      some (monthly, monthly * 12, 3/100)

/-- The body of calculate_cash_flow_metrics after the rent source has been
fixed (newTest.py lines 957-1024): expenses, financing terms, cash equity,
5-year NOI at the compounding rent, cap rate, UCF and cash yield. -/
def build_cash_flow_metrics (row : Row) (monthly_rent annual_rent growth_rate : ℚ) : Metrics :=
  let list_price := row.list_price
  let zip_code := toString row.zip_code
  let neighborhood_factor := get_neighborhood_factor (some zip_code)
  let tax := if row.tax = 0 then (1/100) * list_price else row.tax
  let hoa_fee := if row.hoa_fee = 0 then ((15/10000) * list_price) / 12 else row.hoa_fee
  let down_payment_pct := calculate_down_payment_pct list_price neighborhood_factor
  let mortgage_terms := determine_mortgage_terms list_price neighborhood_factor
  let transaction_cost := (1/100) * list_price
  let cash_equity := down_payment_pct * (list_price + transaction_cost)
  -- the year loop: rent compounds at the growth rate, expenses are
  -- HOA*12 + (5% + 8% + 5%) of that year's rent + 0.5% of list price
  let rentYear := fun (t : ℕ) => annual_rent * (1 + growth_rate) ^ (t - 1)
  let noiYear := fun (t : ℕ) =>
    rentYear t - ((hoa_fee * 12) + rentYear t * (5/100) + rentYear t * (8/100) +
                  rentYear t * (5/100) + list_price * (5/1000))
  let cap_rate := if 0 < list_price then pymin 15 (pymax (-5) ((noiYear 1 / list_price) * 100)) else 0
  let ucfYear := fun (t : ℕ) => noiYear t - tax
  { monthly_rent := monthly_rent
    annual_rent := annual_rent
    tax_used := tax
    hoa_fee_used := hoa_fee
    down_payment_pct := down_payment_pct
    interest_rate := mortgage_terms.1
    loan_term := mortgage_terms.2
    transaction_cost := transaction_cost
    cash_equity := cash_equity
    noi_year1 := noiYear 1
    noi_year2 := noiYear 2
    noi_year3 := noiYear 3
    noi_year4 := noiYear 4
    noi_year5 := noiYear 5
    cap_rate := cap_rate
    ucf_year1 := ucfYear 1
    ucf_year2 := ucfYear 2
    ucf_year3 := ucfYear 3
    ucf_year4 := ucfYear 4
    ucf_year5 := ucfYear 5
    ucf := ucfYear 1
    cash_yield := if 0 < cash_equity then (ucfYear 1 / cash_equity) * 100 else 0 }

/-- newTest.py lines 914-1028, calculate_cash_flow_metrics; none models the
early returns of the (empty) metrics dict when the list price is not
positive or no rent source is available. -/
def calculate_cash_flow_metrics (row : Row) (is_zori_based : Bool) : Option Metrics :=
  if row.list_price ≤ 0 then none
  else (rentSource row is_zori_based).map fun s => build_cash_flow_metrics row s.1 s.2.1 s.2.2

/-- numpy_financial.pmt: the fixed payment per period that amortizes the
present value pv over nper periods at the given periodic rate. -/
def amortPmt (rate : ℚ) (nper : ℕ) (pv : ℚ) : ℚ :=
  (-pv) * (rate * (1 + rate) ^ nper) / ((1 + rate) ^ nper - 1)

/-- The running balance of the monthly loop of calculate_mortgage_metrics
(newTest.py lines 1061-1081): each month the interest is balance * rate,
the principal is payment - interest, and the balance drops by the
principal. -/
def amortBalance (monthly_rate monthly_payment loan_amount : ℚ) : ℕ → ℚ
  | 0 => loan_amount
  | k + 1 =>
    let b := amortBalance monthly_rate monthly_payment loan_amount k
    b - (monthly_payment - b * monthly_rate)

/-- newTest.py lines 1030-1108, calculate_mortgage_metrics.  The yearly
loop accumulates 12 monthly steps, so principal_paid_year t is the balance
drop across months 12(t-1)..12t and loan_balance_year t is the balance
after 12t months; the two else-branches that zero the payment when the
rate or term is zero are the if below (annual debt service is
monthly_payment * 12 in both cases). -/
def calculate_mortgage_metrics (row : Row) (m : Metrics) : Metrics :=
  let list_price := row.list_price
  let total_cost := list_price + m.transaction_cost
  let loan_amount := total_cost * (1 - m.down_payment_pct)
  let interest_rate := m.interest_rate / 100
  let monthly_rate := interest_rate / 12
  let total_periods := m.loan_term * 12
  let monthly_payment :=
    if 0 < monthly_rate ∧ 0 < total_periods then amortPmt monthly_rate total_periods (-loan_amount)
    else 0
  let annual_debt_service := monthly_payment * 12
  let bal := fun (k : ℕ) => amortBalance monthly_rate monthly_payment loan_amount k
  let lcf1 := m.ucf_year1 - annual_debt_service
  let lcf2 := m.ucf_year2 - annual_debt_service
  let lcf3 := m.ucf_year3 - annual_debt_service
  let lcf4 := m.ucf_year4 - annual_debt_service
  let lcf5 := m.ucf_year5 - annual_debt_service
  { m with
    loan_amount := loan_amount
    monthly_payment := monthly_payment
    annual_debt_service := annual_debt_service
    principal_paid_year1 := bal 0 - bal 12
    principal_paid_year2 := bal 12 - bal 24
    principal_paid_year3 := bal 24 - bal 36
    principal_paid_year4 := bal 36 - bal 48
    principal_paid_year5 := bal 48 - bal 60
    loan_balance_year1 := bal 12
    loan_balance_year2 := bal 24
    loan_balance_year3 := bal 36
    loan_balance_year4 := bal 48
    loan_balance_year5 := bal 60
    lcf_year1 := lcf1
    lcf_year2 := lcf2
    lcf_year3 := lcf3
    lcf_year4 := lcf4
    lcf_year5 := lcf5
    total_principal_paid := (bal 0 - bal 12) + (bal 12 - bal 24) + (bal 24 - bal 36) +
      (bal 36 - bal 48) + (bal 48 - bal 60)
    final_loan_balance := bal 60
    accumulated_cash_flow := lcf1 + lcf2 + lcf3 + lcf4 + lcf5 }

/-- newTest.py lines 1110-1186, calculate_investment_returns (the newer
pipeline): first-year cash-on-cash clamped to [-15, 25], and IRR from the
6-entry discounted-cash-flow vector via the abstract solver irrSolve
(none = numerical failure, mapped to 0 like the except branch). -/
def new_calculate_investment_returns (irrSolve : List ℚ → Option ℚ) (row : Row) (m : Metrics) :
    Metrics :=
  let cap_rate := m.cap_rate / 100
  let growth_rate := (row.zori_growth_rate.getD 3) / 100
  let zip_code := toString row.zip_code
  let neighborhood_factor := get_neighborhood_factor (some zip_code)
  let exit_rate := calculate_exit_cap_rate cap_rate growth_rate neighborhood_factor
  let exit_value := if 0 < exit_rate then m.noi_year5 / exit_rate else 0
  let equity_at_exit := exit_value - m.final_loan_balance + m.accumulated_cash_flow
  if 0 < m.cash_equity then
    let first_year_coc := (m.lcf_year1 / m.cash_equity) * 100
    let cash_on_cash := pymin 25 (pymax (-15) first_year_coc)
    let total_return := equity_at_exit / m.cash_equity
    let cash_flows := [-m.cash_equity, m.lcf_year1, m.lcf_year2, m.lcf_year3, m.lcf_year4,
                       m.lcf_year5 + (exit_value - m.final_loan_balance)]
    let irr :=
      if (cash_flows.drop 1).any (fun cf => decide (0 < cf)) then
        match irrSolve cash_flows with
        | some r => pymin 35 (pymax (-25) (r * 100))
        | none => 0
      else -25
    { m with exit_cap_rate := exit_rate * 100, exit_value := exit_value,
             equity_at_exit := equity_at_exit, cash_on_cash := cash_on_cash,
             total_return := total_return, irr := irr }
  else
    { m with exit_cap_rate := exit_rate * 100, exit_value := exit_value,
             equity_at_exit := equity_at_exit, cash_on_cash := 0, irr := 0,
             total_return := 0 }

/-- test.py lines 839-890, calculate_investment_returns (the older
pipeline): cash-on-cash is the 5-year ratio equity_at_exit / cash_equity,
unclamped, and IRR is cash_on_cash ^ (1/5) - 1; the irrational fifth root
is the abstract argument fifthRoot. -/
def old_calculate_investment_returns (fifthRoot : ℚ → ℚ) (row : Row) (m : Metrics) : Metrics :=
  let cap_rate := m.cap_rate / 100
  let growth_rate := (row.zori_growth_rate.getD 3) / 100
  let zip_code := toString row.zip_code
  let neighborhood_factor := get_neighborhood_factor (some zip_code)
  let exit_rate := calculate_exit_cap_rate cap_rate growth_rate neighborhood_factor
  let exit_value := if 0 < exit_rate then m.noi_year5 / exit_rate else 0
  let equity_at_exit := exit_value - m.final_loan_balance + m.accumulated_cash_flow
  if 0 < m.cash_equity then
    let cash_on_cash := equity_at_exit / m.cash_equity
    let irr := if 0 < cash_on_cash then (fifthRoot cash_on_cash - 1) * 100 else 0
    { m with exit_cap_rate := exit_rate * 100, exit_value := exit_value,
             equity_at_exit := equity_at_exit, cash_on_cash := cash_on_cash,
             irr := irr }
  else
    { m with exit_cap_rate := exit_rate * 100, exit_value := exit_value,
             equity_at_exit := equity_at_exit, cash_on_cash := 0, irr := 0 }

/-- The pass/reject decision of filter_investment_outliers for one row
(newTest.py lines 1527-1555); true = the row is kept and written. -/
def passes_outlier_filter (r : FilterRow) : Bool :=
  if 15 < |r.cap_rate| ∨ 35 < |r.irr| ∨ 25 < |r.cash_on_cash| ∨
     r.gross_rent_multiplier ≤ 5 ∨ 60 < r.gross_rent_multiplier then false
  else if r.lcf_year1 < -50000 ∨ r.ucf_year1 < -30000 then false
  else if 0 < r.annual_rent ∧
          (60 < r.list_price / r.annual_rent ∨ r.list_price / r.annual_rent < 5) then false
  else true

/-- newTest.py lines 1496-1572, filter_investment_outliers, as the induced
transformation on the row list: a row is written to the output exactly
when it passes every check.  (The real function additionally appends the
investment_score / investment_ranking fields to each kept row, which does
not affect which rows appear.) -/
def filter_investment_outliers (rows : List FilterRow) : List FilterRow :=
  rows.filter passes_outlier_filter

/-! Concrete instances used to exercise the theorems below on closed
inputs. -/

/-- A row whose ZIP (2) is absent from a one-entry rent index and whose
state is absent from the state averages. -/
def c2row : Row := { zip_code := 2, state := "ZZ" }

/-- A metrics record for exercising the IRR vector theorem: the Scenario E
numbers of the specification. -/
def c3metrics : Metrics :=
  { cash_equity := 100000, lcf_year1 := 8000, lcf_year2 := 8200, lcf_year3 := 8400,
    lcf_year4 := 8600, lcf_year5 := 8800 }

/-- A default row (ZIP 0, no ZORI fields). -/
def c3row : Row := {}

/-- A concrete stand-in for the numeric IRR solver. -/
def c3solver : List ℚ → Option ℚ := fun _ => some (7/100)

/-- A finished row that passes every outlier check (annual rent 0, so the
price-to-rent check is vacuous). -/
def c5r : FilterRow :=
  { cap_rate := 5, irr := 10, cash_on_cash := 8, gross_rent_multiplier := 20,
    list_price := 240000, annual_rent := 0 }

/-- A small positive amortizing loan: price 2, half down, 1200% yearly
rate (monthly rate 1), 1-year term. -/
def c6row : Row := { list_price := 2 }

/-- Metrics feeding the mortgage stage for the loan above. -/
def c6m : Metrics :=
  { transaction_cost := 0, down_payment_pct := 1/2, interest_rate := 1200, loan_term := 1,
    ucf_year1 := 1, ucf_year2 := 1, ucf_year3 := 1, ucf_year4 := 1, ucf_year5 := 1 }

/-- A row with ZORI rent data that passes the cash-flow stage. -/
def c7row : Row :=
  { list_price := 100, zori_monthly_rent := some 1, zori_annual_rent := some 12,
    zori_growth_rate := some 0, tax := 2, hoa_fee := 3 }

/-- The metrics record the cash-flow stage produces for c7row. -/
def c7metrics : Metrics :=
  build_cash_flow_metrics c7row 1 12 ((c7row.zori_growth_rate.getD 3) / 100)

/-- A Multi Family row with 5 bedrooms whose ZIP (7) is in the index. -/
def c8row : Row := { style := "Multi Family", beds := 5, zip_code := 7 }

/-- A default row for comparing the two return calculators. -/
def c9row : Row := {}

/-- Metrics on which the legacy and newer return calculators disagree:
positive cash equity, uniformly negative levered cash flows, zero year-5
NOI and loan balance. -/
def c9metrics : Metrics :=
  { cash_equity := 100, accumulated_cash_flow := -50, lcf_year1 := -10, lcf_year2 := -10,
    lcf_year3 := -10, lcf_year4 := -10, lcf_year5 := -10 }

/-!
## Theorems
-/

theorem pymin_eq_min (a b : ℚ) : pymin a b = min a b := (min_def a b).symm

theorem pymax_eq_max (a b : ℚ) : pymax a b = max a b := (max_def a b).symm

theorem growthModifier_le (style : String) : growthModifier style ≤ 108/100 := by
  unfold growthModifier
  split_ifs <;> norm_num

theorem clamp_div100_bounds (x : ℚ) :
    2/100 ≤ min 10 (max 2 x) / 100 ∧ min 10 (max 2 x) / 100 ≤ 10/100 := by
  have hlo : (2:ℚ) ≤ min 10 (max 2 x) := le_min (by norm_num) (le_max_left _ _)
  have hhi : min 10 (max 2 x) ≤ 10 := min_le_left _ _
  constructor <;> linarith

theorem hoa_amenity_bonus_bounds (hoa_fee : ℚ) :
    0 ≤ hoa_amenity_bonus hoa_fee ∧ hoa_amenity_bonus hoa_fee ≤ 5/100 ∧
    hoa_amenity_bonus hoa_fee ≠ 10/100 := by
  unfold hoa_amenity_bonus
  split_ifs with h1 h2
  · norm_num
  · linarith
  · norm_num

/-- C1 counterexample: at list_price exactly 500000 with neighborhood
factor 0.90 the computed down payment is 0.4425, not the 0.3925 the claim
asserts, because the 0.40 tier covers prices strictly below 500000 only. -/
theorem down_payment_500k_claim_false :
    calculate_down_payment_pct 500000 (90/100) ≠ 3925/10000 := by
  norm_num [calculate_down_payment_pct, pymin, pymax]

/-- C1 (amended): a price of exactly 500000 falls in the 0.45 tier (0.40
applies strictly below 500000), so with neighborhood factor 0.90 the
adjusted down payment is 0.45 - (0.90 - 0.75) * 0.05 = 0.4425; and for
every list price and neighborhood factor the returned fraction lies in
[0.30, 0.60]. -/
theorem down_payment_500k_value_and_bounds :
    calculate_down_payment_pct 500000 (90/100) = 45/100 - (90/100 - 75/100) * (5/100) ∧
    ∀ list_price neighborhood_factor : ℚ,
      30/100 ≤ calculate_down_payment_pct list_price neighborhood_factor ∧
      calculate_down_payment_pct list_price neighborhood_factor ≤ 60/100 := by
  refine ⟨by norm_num [calculate_down_payment_pct, pymin, pymax], fun lp nf => ⟨?_, ?_⟩⟩
  · simp only [calculate_down_payment_pct, pymin_eq_min, pymax_eq_max]
    exact le_min (by norm_num) (le_max_left _ _)
  · simp only [calculate_down_payment_pct, pymin_eq_min, pymax_eq_max]
    exact min_le_left _ _

/-- C10: calculate_amenity_score always lies in [1.0, 1.30]: the keyword
bonus is capped at 0.20, parking adds at most 0.05, and the HOA bonus is
at most 0.05 for every fee -- its 0.10 arm can never fire because any fee
above 1000 already satisfies the 500-test checked first. -/
theorem amenity_score_bounds : ∀ row : Row,
    1 ≤ calculate_amenity_score row ∧ calculate_amenity_score row ≤ 130/100 ∧
    ∀ hoa_fee : ℚ, hoa_amenity_bonus hoa_fee ≤ 5/100 ∧ hoa_amenity_bonus hoa_fee ≠ 10/100 := by
  intro row
  have hhoa := hoa_amenity_bonus_bounds row.hoa_fee
  have hkw0 : (0:ℚ) ≤ min (20/100) ((1/100) *
      (((luxury_keywords.filter fun k => strContains (pylower row.text) k).length : ℕ) : ℚ)) :=
    le_min (by norm_num) (by positivity)
  have hkw1 : min (20/100) ((1/100) *
      (((luxury_keywords.filter fun k => strContains (pylower row.text) k).length : ℕ) : ℚ)) ≤
      20/100 := min_le_left _ _
  refine ⟨?_, ?_, fun fee => ⟨(hoa_amenity_bonus_bounds fee).2.1, (hoa_amenity_bonus_bounds fee).2.2⟩⟩
  · simp only [calculate_amenity_score, pymin_eq_min]
    split_ifs <;> linarith
  · simp only [calculate_amenity_score, pymin_eq_min]
    split_ifs <;> linarith

/-- C4: for every ZIP, any neighborhood factor in [0.75, 0.95] and any
style, the growth rate is the (defaulted) ZIP 5-year CAGR clamped to
[2, 6], plus a neighborhood adjustment of at most 2 points and a
property-type adjustment of at most 1 point, re-clamped to [2, 10] and
returned as a decimal; in particular it always lies in [0.02, 0.10]. -/
theorem growth_rate_decomposition (zip_code : Option String) (neighborhood_factor : ℚ)
    (style : String) (table : List (String × GrowthData))
    (h1 : 75/100 ≤ neighborhood_factor) (h2 : neighborhood_factor ≤ 95/100) :
    ∃ nadj padj : ℚ, nadj ≤ 2 ∧ padj ≤ 1 ∧
      calculate_growth_rate zip_code neighborhood_factor style table =
        min 10 (max 2 ((min 6 (max 2
            (((zip_code.bind fun z => table.lookup z).getD {}).five_year_cagr))) + nadj + padj))
          / 100 ∧
      2/100 ≤ calculate_growth_rate zip_code neighborhood_factor style table ∧
      calculate_growth_rate zip_code neighborhood_factor style table ≤ 10/100 := by
  refine ⟨neighborhood_factor * (2/100) * 100, (growthModifier style - 1) * (1/100) * 100,
    ?_, ?_, ?_, ?_, ?_⟩
  · have h : neighborhood_factor * (2/100) * 100 = 2 * neighborhood_factor := by ring
    rw [h]; linarith
  · have h : (growthModifier style - 1) * (1/100) * 100 = growthModifier style - 1 := by ring
    have hg := growthModifier_le style
    rw [h]; linarith
  · simp only [calculate_growth_rate, pymin_eq_min, pymax_eq_max]
  · simp only [calculate_growth_rate, pymin_eq_min, pymax_eq_max]
    exact (clamp_div100_bounds _).1
  · simp only [calculate_growth_rate, pymin_eq_min, pymax_eq_max]
    exact (clamp_div100_bounds _).2

/-- Witness for the growth-rate theorem at a concrete neighborhood factor
inside [0.75, 0.95]. -/
theorem growth_rate_decomposition_witness :
    ∃ nadj padj : ℚ, nadj ≤ 2 ∧ padj ≤ 1 ∧
      calculate_growth_rate none (8/10) "" [] =
        min 10 (max 2 ((min 6 (max 2
            (((Option.bind (none : Option String) fun z =>
                List.lookup z ([] : List (String × GrowthData))).getD {}).five_year_cagr)))
            + nadj + padj)) / 100 ∧
      2/100 ≤ calculate_growth_rate none (8/10) "" [] ∧
      calculate_growth_rate none (8/10) "" [] ≤ 10/100 :=
  growth_rate_decomposition none (8/10) "" [] (by norm_num) (by norm_num)

theorem estimate_none_iff_resolve_none (current_month : ℕ) (current_year : ℚ) (row : Row)
    (zori : List (String × ℚ)) (gtable : List (String × GrowthData))
    (seas : List (ℕ × ℚ)) (stavg : List (String × ℚ)) :
    estimate_rental_income current_month current_year row zori gtable seas stavg = none ↔
      resolve_base_rent (toString row.zip_code) row.state zori stavg = none := by
  unfold estimate_rental_income
  cases h : resolve_base_rent (toString row.zip_code) row.state zori stavg <;> simp [h]

theorem resolve_zip_none_iff (z : String) (zori : List (String × ℚ)) :
    resolve_zip z zori = none ↔
      (zori.lookup z = none ∧ find_closest_zip_with_data z zori = none) := by
  unfold resolve_zip
  cases h : zori.lookup z <;> simp [h]

theorem resolve_base_rent_none_iff (z st : String) (zori stavg : List (String × ℚ)) :
    resolve_base_rent z st zori stavg = none ↔
      (zori.lookup z = none ∧ find_closest_zip_with_data z zori = none ∧
       stavg.lookup st = none) := by
  unfold resolve_base_rent
  cases hr : resolve_zip z zori with
  | none =>
    have hn := (resolve_zip_none_iff z zori).mp hr
    simp [hn.1, hn.2]
  | some w =>
    have hnn : ¬(zori.lookup z = none ∧ find_closest_zip_with_data z zori = none) := by
      intro hc
      rw [(resolve_zip_none_iff z zori).mpr hc] at hr
      cases hr
    simp only []
    constructor
    · intro hcontra; cases hcontra
    · rintro ⟨ha, hb, _⟩; exact absurd ⟨ha, hb⟩ hnn

theorem resolve_base_rent_exact (z st : String) (zori stavg : List (String × ℚ)) (b : ℚ)
    (h : zori.lookup z = some b) :
    resolve_base_rent z st zori stavg = some b := by
  unfold resolve_base_rent resolve_zip
  rw [h]
  simp [h]

theorem resolve_base_rent_closest (z st : String) (zori stavg : List (String × ℚ)) (w : String)
    (h : zori.lookup z = none) (hc : find_closest_zip_with_data z zori = some w) :
    resolve_base_rent z st zori stavg = some ((zori.lookup w).getD 0) := by
  unfold resolve_base_rent resolve_zip
  rw [h]
  simp [hc]

theorem resolve_base_rent_state (z st : String) (zori stavg : List (String × ℚ))
    (h : zori.lookup z = none) (hc : find_closest_zip_with_data z zori = none) :
    resolve_base_rent z st zori stavg = stavg.lookup st := by
  unfold resolve_base_rent resolve_zip
  rw [h]
  simp [hc]

/-- C2 (amended): the rent estimator returns the all-None result exactly
when the ZIP has no exact index entry, the nearest-numeric-ZIP fallback
finds nothing, and the state has no average; and the base rent is resolved
in that order: the exact ZIP entry first, else the nearest numeric ZIP's
entry, else the state average.  (The claim's first sentence fails as
stated: a missing ZIP with a missing state still gets an estimate whenever
the index holds any other numeric ZIP.) -/
theorem rent_estimate_fallback_order (current_month : ℕ) (current_year : ℚ) (row : Row)
    (zori : List (String × ℚ)) (gtable : List (String × GrowthData))
    (seas : List (ℕ × ℚ)) (stavg : List (String × ℚ)) :
    (estimate_rental_income current_month current_year row zori gtable seas stavg = none ↔
      (zori.lookup (toString row.zip_code) = none ∧
       find_closest_zip_with_data (toString row.zip_code) zori = none ∧
       stavg.lookup row.state = none)) ∧
    (∀ b, zori.lookup (toString row.zip_code) = some b →
      resolve_base_rent (toString row.zip_code) row.state zori stavg = some b) ∧
    (∀ w, zori.lookup (toString row.zip_code) = none →
      find_closest_zip_with_data (toString row.zip_code) zori = some w →
      resolve_base_rent (toString row.zip_code) row.state zori stavg =
        some ((zori.lookup w).getD 0)) ∧
    (zori.lookup (toString row.zip_code) = none →
      find_closest_zip_with_data (toString row.zip_code) zori = none →
      resolve_base_rent (toString row.zip_code) row.state zori stavg = stavg.lookup row.state) :=
  ⟨(estimate_none_iff_resolve_none current_month current_year row zori gtable seas stavg).trans
      (resolve_base_rent_none_iff (toString row.zip_code) row.state zori stavg),
   fun b h => resolve_base_rent_exact (toString row.zip_code) row.state zori stavg b h,
   fun w h hc => resolve_base_rent_closest (toString row.zip_code) row.state zori stavg w h hc,
   fun h hc => resolve_base_rent_state (toString row.zip_code) row.state zori stavg h hc⟩

/-- C2 counterexample: ZIP 2 is absent from the one-entry index and state
ZZ is absent from the (empty) state averages, yet the estimator returns a
result (not the all-None tuple), because the nearest-numeric-ZIP fallback
resolves ZIP 1. -/
theorem rent_estimate_missing_zip_missing_state_not_none :
    List.lookup (toString c2row.zip_code) [("1", (1000:ℚ))] = none ∧
    List.lookup c2row.state ([] : List (String × ℚ)) = none ∧
    (estimate_rental_income 1 2024 c2row [("1", 1000)] [] [] []).isSome = true := by
  refine ⟨by decide, by decide, by decide⟩

/-- Witness for the fallback-order theorem: at the concrete inputs of the
counterexample, the base rent resolves through the nearest-numeric-ZIP
entry. -/
theorem rent_estimate_fallback_order_witness :
    resolve_base_rent (toString c2row.zip_code) c2row.state [("1", (1000:ℚ))] [] =
      some ((List.lookup "1" [("1", (1000:ℚ))]).getD 0) :=
  (rent_estimate_fallback_order 1 2024 c2row [("1", 1000)] [] [] []).2.2.1 "1"
    (by decide) (by decide)

/-- C8: a Multi Family listing with at least 4 bedrooms is priced as
max(2, beds // 2) rentable units of the resolved base index rent at a 15
percent discount; the weighted blended factor (and its seasonality
multiplier) is not applied. -/
theorem multi_family_unit_rent (current_month : ℕ) (current_year : ℚ) (row : Row)
    (zori : List (String × ℚ)) (gtable : List (String × GrowthData))
    (seas : List (ℕ × ℚ)) (stavg : List (String × ℚ)) (b : ℚ)
    (hstyle : pystrip row.style = "Multi Family") (hbeds : 4 ≤ row.beds)
    (hbase : resolve_base_rent (toString row.zip_code) row.state zori stavg = some b) :
    (estimate_rental_income current_month current_year row zori gtable seas stavg).map
        RentEstimate.monthly =
      some (b * (pymax 2 ((⌊row.beds / 2⌋ : ℤ) : ℚ)) * (85/100)) := by
  simp only [estimate_rental_income]
  rw [hbase]
  have hne : ¬(pystrip row.style = "") := by rw [hstyle]; decide
  simp only [hstyle, if_neg hne]
  simp [hbeds]

/-- Witness for the multi-family theorem: 5 beds, ZIP 7 resolving to a
base rent of 100. -/
theorem multi_family_unit_rent_witness :
    (estimate_rental_income 1 2024 c8row [("7", (100:ℚ))] [] [] []).map
        RentEstimate.monthly =
      some (100 * (pymax 2 ((⌊c8row.beds / 2⌋ : ℤ) : ℚ)) * (85/100)) :=
  multi_family_unit_rent 1 2024 c8row [("7", 100)] [] [] [] 100
    (by decide) (by decide) (by decide)

theorem new_returns_fields (irrSolve : List ℚ → Option ℚ) (row : Row) (m : Metrics)
    (h : 0 < m.cash_equity) :
    (new_calculate_investment_returns irrSolve row m).exit_value =
      (if 0 < calculate_exit_cap_rate (m.cap_rate / 100) ((row.zori_growth_rate.getD 3) / 100)
            (get_neighborhood_factor (some (toString row.zip_code))) then
        m.noi_year5 / calculate_exit_cap_rate (m.cap_rate / 100)
          ((row.zori_growth_rate.getD 3) / 100)
          (get_neighborhood_factor (some (toString row.zip_code)))
      else 0) ∧
    (new_calculate_investment_returns irrSolve row m).equity_at_exit =
      (new_calculate_investment_returns irrSolve row m).exit_value - m.final_loan_balance +
        m.accumulated_cash_flow ∧
    (new_calculate_investment_returns irrSolve row m).cash_on_cash =
      pymin 25 (pymax (-15) ((m.lcf_year1 / m.cash_equity) * 100)) ∧
    (new_calculate_investment_returns irrSolve row m).irr =
      (let cash_flows := [-m.cash_equity, m.lcf_year1, m.lcf_year2, m.lcf_year3, m.lcf_year4,
        m.lcf_year5 + ((new_calculate_investment_returns irrSolve row m).exit_value -
          m.final_loan_balance)];
       if (cash_flows.drop 1).any (fun cf => decide (0 < cf)) then
         match irrSolve cash_flows with
         | some r => pymin 35 (pymax (-25) (r * 100))
         | none => 0
       else -25) := by
  simp only [new_calculate_investment_returns]
  rw [if_pos h]
  exact ⟨rfl, rfl, rfl, rfl⟩

theorem old_returns_fields (fifthRoot : ℚ → ℚ) (row : Row) (m : Metrics)
    (h : 0 < m.cash_equity) :
    (old_calculate_investment_returns fifthRoot row m).exit_value =
      (if 0 < calculate_exit_cap_rate (m.cap_rate / 100) ((row.zori_growth_rate.getD 3) / 100)
            (get_neighborhood_factor (some (toString row.zip_code))) then
        m.noi_year5 / calculate_exit_cap_rate (m.cap_rate / 100)
          ((row.zori_growth_rate.getD 3) / 100)
          (get_neighborhood_factor (some (toString row.zip_code)))
      else 0) ∧
    (old_calculate_investment_returns fifthRoot row m).equity_at_exit =
      (old_calculate_investment_returns fifthRoot row m).exit_value - m.final_loan_balance +
        m.accumulated_cash_flow ∧
    (old_calculate_investment_returns fifthRoot row m).cash_on_cash =
      (old_calculate_investment_returns fifthRoot row m).equity_at_exit / m.cash_equity ∧
    (old_calculate_investment_returns fifthRoot row m).irr =
      (if 0 < (old_calculate_investment_returns fifthRoot row m).cash_on_cash then
        (fifthRoot ((old_calculate_investment_returns fifthRoot row m).cash_on_cash) - 1) * 100
      else 0) := by
  simp only [old_calculate_investment_returns]
  rw [if_pos h]
  exact ⟨rfl, rfl, rfl, rfl⟩

/-- C3: with positive cash equity, the newer calculate_investment_returns
derives IRR from the 6-entry cash-flow vector [-cash_equity, LCF1, LCF2,
LCF3, LCF4, LCF5 + (exit_value - final_loan_balance)]: the abstract
solver's root is clamped to [-25, 35] percent; -25 is returned when no
vector entry after the initial outlay is positive; 0 is returned when the
solver fails numerically (none). -/
theorem irr_vector_clamp_and_fallbacks (irrSolve : List ℚ → Option ℚ) (row : Row) (m : Metrics)
    (h : 0 < m.cash_equity) :
    (new_calculate_investment_returns irrSolve row m).irr =
      (let cash_flows := [-m.cash_equity, m.lcf_year1, m.lcf_year2, m.lcf_year3, m.lcf_year4,
        m.lcf_year5 + ((new_calculate_investment_returns irrSolve row m).exit_value -
          m.final_loan_balance)];
       if (cash_flows.drop 1).any (fun cf => decide (0 < cf)) then
         match irrSolve cash_flows with
         | some r => pymin 35 (pymax (-25) (r * 100))
         | none => 0
       else -25) :=
  (new_returns_fields irrSolve row m h).2.2.2

/-- Witness for the IRR-vector theorem at the Scenario E cash flows. -/
theorem irr_vector_clamp_and_fallbacks_witness :
    (0:ℚ) < c3metrics.cash_equity ∧
    (new_calculate_investment_returns c3solver c3row c3metrics).irr =
      (let cash_flows := [-c3metrics.cash_equity, c3metrics.lcf_year1, c3metrics.lcf_year2,
        c3metrics.lcf_year3, c3metrics.lcf_year4,
        c3metrics.lcf_year5 +
          ((new_calculate_investment_returns c3solver c3row c3metrics).exit_value -
            c3metrics.final_loan_balance)];
       if (cash_flows.drop 1).any (fun cf => decide (0 < cf)) then
         match c3solver cash_flows with
         | some r => pymin 35 (pymax (-25) (r * 100))
         | none => 0
       else -25) :=
  ⟨by norm_num [c3metrics],
   irr_vector_clamp_and_fallbacks c3solver c3row c3metrics (by norm_num [c3metrics])⟩

/-- C9: the legacy (test.py) and newer (newTest.py) return calculators
materially disagree: on the concrete metrics below the legacy 5-year-ratio
cash-on-cash is -0.5 with IRR 0, while the newer first-year cash-on-cash
is -10 with discounted-cash-flow IRR -25, whatever functions model the
external fifth root and IRR solver; in particular the two calculators are
not equal as functions. -/
theorem old_new_returns_diverge :
    ∀ (fifthRoot : ℚ → ℚ) (irrSolve : List ℚ → Option ℚ),
      (old_calculate_investment_returns fifthRoot c9row c9metrics).cash_on_cash = -(1/2) ∧
      (old_calculate_investment_returns fifthRoot c9row c9metrics).irr = 0 ∧
      (new_calculate_investment_returns irrSolve c9row c9metrics).cash_on_cash = -10 ∧
      (new_calculate_investment_returns irrSolve c9row c9metrics).irr = -25 ∧
      old_calculate_investment_returns fifthRoot ≠ new_calculate_investment_returns irrSolve := by
  intro fifthRoot irrSolve
  have hce : (0:ℚ) < c9metrics.cash_equity := by norm_num [c9metrics]
  obtain ⟨hev, heq, hcoc, hirr⟩ := old_returns_fields fifthRoot c9row c9metrics hce
  obtain ⟨hev2, heq2, hcoc2, hirr2⟩ := new_returns_fields irrSolve c9row c9metrics hce
  have hev0 : (old_calculate_investment_returns fifthRoot c9row c9metrics).exit_value = 0 := by
    rw [hev]; split <;> simp [c9metrics]
  have heq0 : (old_calculate_investment_returns fifthRoot c9row c9metrics).equity_at_exit
      = -50 := by
    rw [heq, hev0]; norm_num [c9metrics]
  have hcoc0 : (old_calculate_investment_returns fifthRoot c9row c9metrics).cash_on_cash
      = -(1/2) := by
    rw [hcoc, heq0]; norm_num [c9metrics]
  have hirr0 : (old_calculate_investment_returns fifthRoot c9row c9metrics).irr = 0 := by
    rw [hirr, hcoc0]
    rw [if_neg (by norm_num)]
  have hev0n : (new_calculate_investment_returns irrSolve c9row c9metrics).exit_value = 0 := by
    rw [hev2]; split <;> simp [c9metrics]
  have hcoc0n : (new_calculate_investment_returns irrSolve c9row c9metrics).cash_on_cash
      = -10 := by
    rw [hcoc2]; norm_num [c9metrics, pymin, pymax]
  have hirr0n : (new_calculate_investment_returns irrSolve c9row c9metrics).irr = -25 := by
    rw [hirr2, hev0n]
    norm_num [c9metrics]
  refine ⟨hcoc0, hirr0, hcoc0n, hirr0n, fun hfun => ?_⟩
  have hfield := congrArg Metrics.cash_on_cash (congrFun (congrFun hfun c9row) c9metrics)
  rw [hcoc0, hcoc0n] at hfield
  norm_num at hfield

/-- Witness instantiating the divergence theorem at concrete solver
stand-ins. -/
theorem old_new_returns_diverge_witness :
    (old_calculate_investment_returns id c9row c9metrics).cash_on_cash = -(1/2) ∧
    (new_calculate_investment_returns (fun _ => none) c9row c9metrics).cash_on_cash = -10 :=
  ⟨(old_new_returns_diverge id (fun _ => none)).1,
   (old_new_returns_diverge id (fun _ => none)).2.2.1⟩

theorem passes_outlier_filter_iff (r : FilterRow) :
    passes_outlier_filter r = true ↔
      (|r.cap_rate| ≤ 15 ∧ |r.irr| ≤ 35 ∧ |r.cash_on_cash| ≤ 25 ∧
       5 < r.gross_rent_multiplier ∧ r.gross_rent_multiplier ≤ 60 ∧
       -50000 ≤ r.lcf_year1 ∧ -30000 ≤ r.ucf_year1 ∧
       (0 < r.annual_rent →
         r.list_price / r.annual_rent ≤ 60 ∧ 5 ≤ r.list_price / r.annual_rent)) := by
  unfold passes_outlier_filter
  constructor
  · intro hpass
    split_ifs at hpass with hA hB hC
    push_neg at hA hB hC
    exact ⟨hA.1, hA.2.1, hA.2.2.1, hA.2.2.2.1, hA.2.2.2.2, hB.1, hB.2, hC⟩
  · rintro ⟨h1, h2, h3, h4, h5, h6, h7, h8⟩
    have hA : ¬(15 < |r.cap_rate| ∨ 35 < |r.irr| ∨ 25 < |r.cash_on_cash| ∨
        r.gross_rent_multiplier ≤ 5 ∨ 60 < r.gross_rent_multiplier) := by
      push_neg
      exact ⟨h1, h2, h3, h4, h5⟩
    have hB : ¬(r.lcf_year1 < -50000 ∨ r.ucf_year1 < -30000) := by
      push_neg
      exact ⟨h6, h7⟩
    have hC : ¬(0 < r.annual_rent ∧
        (60 < r.list_price / r.annual_rent ∨ r.list_price / r.annual_rent < 5)) := by
      rintro ⟨har, hd | hd⟩
      · exact absurd hd (not_lt.mpr (h8 har).1)
      · exact absurd hd (not_lt.mpr (h8 har).2)
    rw [if_neg hA, if_neg hB, if_neg hC]

/-- C5: every row that filter_investment_outliers writes to its output
satisfies all the metric bounds (cap rate, IRR, cash-on-cash within their
windows, GRM in (5, 60], first-year cash flows above the floors, and a
price-to-annual-rent ratio in [5, 60] whenever the annual rent is
positive); a row violating any of them is omitted entirely. -/
theorem outlier_filter_sound :
    (∀ (rows : List FilterRow) (r : FilterRow), r ∈ filter_investment_outliers rows →
      (|r.cap_rate| ≤ 15 ∧ |r.irr| ≤ 35 ∧ |r.cash_on_cash| ≤ 25 ∧
       5 < r.gross_rent_multiplier ∧ r.gross_rent_multiplier ≤ 60 ∧
       -50000 ≤ r.lcf_year1 ∧ -30000 ≤ r.ucf_year1 ∧
       (0 < r.annual_rent →
         r.list_price / r.annual_rent ≤ 60 ∧ 5 ≤ r.list_price / r.annual_rent))) ∧
    (∀ (rows : List FilterRow) (r : FilterRow),
      ¬(|r.cap_rate| ≤ 15 ∧ |r.irr| ≤ 35 ∧ |r.cash_on_cash| ≤ 25 ∧
        5 < r.gross_rent_multiplier ∧ r.gross_rent_multiplier ≤ 60 ∧
        -50000 ≤ r.lcf_year1 ∧ -30000 ≤ r.ucf_year1 ∧
        (0 < r.annual_rent →
          r.list_price / r.annual_rent ≤ 60 ∧ 5 ≤ r.list_price / r.annual_rent)) →
      r ∉ filter_investment_outliers rows) := by
  constructor
  · intro rows r hmem
    have hmem2 : r ∈ rows.filter passes_outlier_filter := hmem
    exact (passes_outlier_filter_iff r).mp (List.mem_filter.mp hmem2).2
  · intro rows r hviol hmem
    have hmem2 : r ∈ rows.filter passes_outlier_filter := hmem
    exact hviol ((passes_outlier_filter_iff r).mp (List.mem_filter.mp hmem2).2)

/-- Witness: the concrete row c5r is kept by the filter and satisfies
every bound. -/
theorem outlier_filter_sound_witness :
    c5r ∈ filter_investment_outliers [c5r] ∧
    (|c5r.cap_rate| ≤ 15 ∧ |c5r.irr| ≤ 35 ∧ |c5r.cash_on_cash| ≤ 25 ∧
     5 < c5r.gross_rent_multiplier ∧ c5r.gross_rent_multiplier ≤ 60 ∧
     -50000 ≤ c5r.lcf_year1 ∧ -30000 ≤ c5r.ucf_year1 ∧
     (0 < c5r.annual_rent →
       c5r.list_price / c5r.annual_rent ≤ 60 ∧ 5 ≤ c5r.list_price / c5r.annual_rent)) :=
  ⟨by decide, outlier_filter_sound.1 [c5r] c5r (by decide)⟩

theorem amortPmt_ge_interest (r L : ℚ) (n : ℕ) (hr : 0 < r) (hn : n ≠ 0) (hL : 0 < L) :
    L * r ≤ amortPmt r n (-L) := by
  unfold amortPmt
  rw [neg_neg]
  have hA : (1:ℚ) < (1 + r) ^ n := one_lt_pow₀ (by linarith) hn
  have hA0 : (0:ℚ) < (1 + r) ^ n - 1 := by linarith
  rw [le_div_iff₀ hA0]
  have hLr : 0 < L * r := mul_pos hL hr
  nlinarith

theorem amortBalance_le_loan (r pmt L : ℚ) (hr : 0 < r) (hpmt : L * r ≤ pmt) :
    ∀ k, amortBalance r pmt L k ≤ L := by
  intro k
  induction k with
  | zero => exact le_refl L
  | succ k ih =>
    have hbr : amortBalance r pmt L k * r ≤ L * r :=
      mul_le_mul_of_nonneg_right ih (le_of_lt hr)
    show amortBalance r pmt L k - (pmt - amortBalance r pmt L k * r) ≤ L
    linarith

theorem amortBalance_succ_le (r pmt L : ℚ) (hr : 0 < r) (hpmt : L * r ≤ pmt) (k : ℕ) :
    amortBalance r pmt L (k + 1) ≤ amortBalance r pmt L k := by
  have hb := amortBalance_le_loan r pmt L hr hpmt k
  have hbr : amortBalance r pmt L k * r ≤ L * r :=
    mul_le_mul_of_nonneg_right hb (le_of_lt hr)
  show amortBalance r pmt L k - (pmt - amortBalance r pmt L k * r) ≤ amortBalance r pmt L k
  linarith

theorem amortBalance_add_le (r pmt L : ℚ) (hr : 0 < r) (hpmt : L * r ≤ pmt) (k : ℕ) :
    ∀ d, amortBalance r pmt L (k + d) ≤ amortBalance r pmt L k := by
  intro d
  induction d with
  | zero => exact le_refl _
  | succ d ih => exact le_trans (amortBalance_succ_le r pmt L hr hpmt (k + d)) ih

/-- C6: for a loan with positive loan amount, positive interest rate and a
positive term (so the amortizer computes the fixed payment), the year-end
balances loan_balance_year1 .. loan_balance_year5 are non-increasing,
starting from the loan amount. -/
theorem loan_balances_nonincreasing (row : Row) (m : Metrics)
    (hL : 0 < (row.list_price + m.transaction_cost) * (1 - m.down_payment_pct))
    (hr : 0 < m.interest_rate) (ht : 0 < m.loan_term) :
    (calculate_mortgage_metrics row m).loan_balance_year1 ≤
      (calculate_mortgage_metrics row m).loan_amount ∧
    (calculate_mortgage_metrics row m).loan_balance_year2 ≤
      (calculate_mortgage_metrics row m).loan_balance_year1 ∧
    (calculate_mortgage_metrics row m).loan_balance_year3 ≤
      (calculate_mortgage_metrics row m).loan_balance_year2 ∧
    (calculate_mortgage_metrics row m).loan_balance_year4 ≤
      (calculate_mortgage_metrics row m).loan_balance_year3 ∧
    (calculate_mortgage_metrics row m).loan_balance_year5 ≤
      (calculate_mortgage_metrics row m).loan_balance_year4 := by
  have hmr : 0 < m.interest_rate / 100 / 12 := by positivity
  have hnz : m.loan_term * 12 ≠ 0 := by omega
  have hcond : 0 < m.interest_rate / 100 / 12 ∧ 0 < m.loan_term * 12 :=
    ⟨hmr, Nat.pos_of_ne_zero hnz⟩
  have hpmtif : (row.list_price + m.transaction_cost) * (1 - m.down_payment_pct) *
      (m.interest_rate / 100 / 12) ≤
      (if 0 < m.interest_rate / 100 / 12 ∧ 0 < m.loan_term * 12 then
        amortPmt (m.interest_rate / 100 / 12) (m.loan_term * 12)
          (-((row.list_price + m.transaction_cost) * (1 - m.down_payment_pct)))
      else 0) := by
    rw [if_pos hcond]
    exact amortPmt_ge_interest _ _ _ hmr hnz hL
  exact ⟨amortBalance_le_loan _ _ _ hmr hpmtif 12,
         amortBalance_add_le _ _ _ hmr hpmtif 12 12,
         amortBalance_add_le _ _ _ hmr hpmtif 24 12,
         amortBalance_add_le _ _ _ hmr hpmtif 36 12,
         amortBalance_add_le _ _ _ hmr hpmtif 48 12⟩

/-- Witness: the loan above (amount 1, monthly rate 1, one-year term) has
non-increasing year-end balances. -/
theorem loan_balances_nonincreasing_witness :
    (0:ℚ) < (c6row.list_price + c6m.transaction_cost) * (1 - c6m.down_payment_pct) ∧
    ((calculate_mortgage_metrics c6row c6m).loan_balance_year1 ≤
       (calculate_mortgage_metrics c6row c6m).loan_amount ∧
     (calculate_mortgage_metrics c6row c6m).loan_balance_year2 ≤
       (calculate_mortgage_metrics c6row c6m).loan_balance_year1 ∧
     (calculate_mortgage_metrics c6row c6m).loan_balance_year3 ≤
       (calculate_mortgage_metrics c6row c6m).loan_balance_year2 ∧
     (calculate_mortgage_metrics c6row c6m).loan_balance_year4 ≤
       (calculate_mortgage_metrics c6row c6m).loan_balance_year3 ∧
     (calculate_mortgage_metrics c6row c6m).loan_balance_year5 ≤
       (calculate_mortgage_metrics c6row c6m).loan_balance_year4) :=
  ⟨by norm_num [c6row, c6m],
   loan_balances_nonincreasing c6row c6m (by norm_num [c6row, c6m])
     (by norm_num [c6m]) (by norm_num [c6m])⟩

theorem round_sum_close (a b : ℚ) :
    |round a + round b - round (a + b)| ≤ 1 := by
  have ha := abs_sub_round a
  have hb := abs_sub_round b
  have hab := abs_sub_round (a + b)
  have key : |((round a + round b - round (a + b) : ℤ) : ℚ)| ≤ 3/2 := by
    push_cast
    have h3 : ((round a : ℚ) + (round b : ℚ) - (round (a + b) : ℚ)) =
        -(a - (round a : ℚ)) + -(b - (round b : ℚ)) + ((a + b) - (round (a + b) : ℚ)) := by
      ring
    rw [h3]
    calc |-(a - (round a : ℚ)) + -(b - (round b : ℚ)) + ((a + b) - (round (a + b) : ℚ))|
        ≤ |-(a - (round a : ℚ))| + |-(b - (round b : ℚ))| +
            |(a + b) - (round (a + b) : ℚ)| := abs_add_three _ _ _
      _ ≤ 1/2 + 1/2 + 1/2 := by
          rw [abs_neg, abs_neg]
          exact add_le_add (add_le_add ha hb) hab
      _ ≤ 3/2 := by norm_num
  have hlt : |round a + round b - round (a + b)| < 2 := by
    have : |((round a + round b - round (a + b) : ℤ) : ℚ)| < 2 := key.trans_lt (by norm_num)
    rw [← Int.cast_abs] at this
    exact_mod_cast this
  omega

/-- C7: for every row the cash-flow stage accepts, the transaction cost is
1 percent of the list price, the cash equity is the down-payment share of
(price + cost), the mortgage stage's loan amount is the complementary
share, so loan_amount + cash_equity equals list_price + transaction_cost
exactly, and after whole-dollar rounding the identity holds within one
dollar. -/
theorem loan_plus_equity_totals (row : Row) (iz : Bool) (m : Metrics)
    (h : calculate_cash_flow_metrics row iz = some m) :
    m.transaction_cost = (1/100) * row.list_price ∧
    m.cash_equity = m.down_payment_pct * (row.list_price + m.transaction_cost) ∧
    (calculate_mortgage_metrics row m).loan_amount + m.cash_equity =
      row.list_price + m.transaction_cost ∧
    |round ((calculate_mortgage_metrics row m).loan_amount) + round m.cash_equity -
      round (row.list_price + m.transaction_cost)| ≤ 1 := by
  have hm : ∃ mr ar g, m = build_cash_flow_metrics row mr ar g := by
    unfold calculate_cash_flow_metrics at h
    split at h
    · exact Option.noConfusion h
    · cases hs : rentSource row iz with
      | none => rw [hs] at h; exact Option.noConfusion h
      | some s =>
        rw [hs] at h
        simp only [Option.map_some', Option.some.injEq] at h
        exact ⟨s.1, s.2.1, s.2.2, h.symm⟩
  obtain ⟨mr, ar, g, rfl⟩ := hm
  have e2 : (build_cash_flow_metrics row mr ar g).cash_equity =
      (build_cash_flow_metrics row mr ar g).down_payment_pct *
        (row.list_price + (build_cash_flow_metrics row mr ar g).transaction_cost) := rfl
  have e3 : (calculate_mortgage_metrics row (build_cash_flow_metrics row mr ar g)).loan_amount =
      (row.list_price + (build_cash_flow_metrics row mr ar g).transaction_cost) *
        (1 - (build_cash_flow_metrics row mr ar g).down_payment_pct) := rfl
  have hid : (calculate_mortgage_metrics row (build_cash_flow_metrics row mr ar g)).loan_amount +
      (build_cash_flow_metrics row mr ar g).cash_equity =
      row.list_price + (build_cash_flow_metrics row mr ar g).transaction_cost := by
    rw [e3, e2]
    ring
  refine ⟨rfl, e2, hid, ?_⟩
  rw [← hid]
  exact round_sum_close _ _

/-- Witness: the concrete row c7row passes the cash-flow stage and the
loan/equity identity holds for it. -/
theorem loan_plus_equity_totals_witness :
    calculate_cash_flow_metrics c7row true = some c7metrics ∧
    (c7metrics.transaction_cost = (1/100) * c7row.list_price ∧
     c7metrics.cash_equity =
       c7metrics.down_payment_pct * (c7row.list_price + c7metrics.transaction_cost) ∧
     (calculate_mortgage_metrics c7row c7metrics).loan_amount + c7metrics.cash_equity =
       c7row.list_price + c7metrics.transaction_cost ∧
     |round ((calculate_mortgage_metrics c7row c7metrics).loan_amount) +
       round c7metrics.cash_equity -
       round (c7row.list_price + c7metrics.transaction_cost)| ≤ 1) :=
  ⟨rfl, loan_plus_equity_totals c7row true c7metrics rfl⟩

end Pipeline
